import Mathlib

/-!
Verification development for the surface-dtx-daemon detachment state engine.

The definitions below are a shallow embedding of the Rust sources:
* `src/surface-dtx-daemon/src/logic/core.rs` — the core state machine (`Core`),
* `src/surface-dtx-daemon/src/logic/mod.rs` — the shared data types,
* `src/surface-dtx-daemon/src/service/arg.rs` — D-Bus string encodings,
* `src/surface-dtx-daemon/src/logic/proc.rs` — exit-status logic of the process adapter,
* `src/surface-dtx-daemon/src/utils/taskq.rs` — the task queue run loop.

Stateful handler methods become pure functions from a `CoreState` (plus the
value the device would return for a `get_latch_status` ioctl) to a new state
together with the list of device control calls and adapter callbacks they
perform, in order.  Tracing/log statements have no observable effect and are
dropped.  Device control operations are assumed to succeed (a failing ioctl
aborts the whole daemon in the source and leaves the state machine entirely).
-/

namespace Sdtxd

/-- Base connection state (`sdtx::BaseState` as used in `logic/mod.rs`). -/
inductive BaseState
  | attached
  | detached
  | notFeasible
  deriving DecidableEq, Repr, Fintype

/-- Latch position with hardware errors collapsed (`logic/mod.rs::LatchState`). -/
inductive LatchState
  | closed
  | opened
  deriving DecidableEq, Repr, Fintype

/-- EC handshake state (`logic/core.rs::EcState`). -/
inductive EcState
  | ready
  | inProgress
  | confirmed
  deriving DecidableEq, Repr, Fintype

/-- Which script phase the core owns (`logic/core.rs::RuntimeState`). -/
inductive RuntimeState
  | ready
  | detaching
  | canceling
  | attaching
  deriving DecidableEq, Repr, Fintype

/-- Hardware latch errors (`sdtx::HardwareError`); the raw code of the unknown
variant is a `u16` in the source, modelled as `Nat`. -/
inductive HardwareError
  | failedToOpen
  | failedToRemainOpen
  | failedToClose
  | unknown (code : Nat)
  deriving DecidableEq, Repr

/-- Latch status as reported by the device (`sdtx::LatchStatus`). -/
inductive LatchStatus
  | closed
  | opened
  | error (err : HardwareError)
  deriving DecidableEq, Repr

/-- Runtime cancellation errors (`logic/mod.rs::RuntimeError`). -/
inductive RuntimeError
  | notAttached
  | notFeasible
  | timeout
  | unknown (code : Nat)
  deriving DecidableEq, Repr

/-- Cancellation reason.  The variants are the ones matched by the
`DbusArg` impl in `service/arg.rs`; the core state machine
(`logic/mod.rs`) only ever constructs `userRequest`, `runtime`,
`hardware` and `unknown`. -/
inductive CancelReason
  | userRequest
  | handlerTimeout
  | disconnectTimeout
  | runtime (err : RuntimeError)
  | hardware (err : HardwareError)
  | unknown (code : Nat)
  deriving DecidableEq, Repr

/-- Base device type (`sdtx::DeviceType`). -/
inductive DeviceType
  | hid
  | ssh
  | unknown (code : Nat)
  deriving DecidableEq, Repr

/-- Device mode (`sdtx::DeviceMode`). -/
inductive DeviceMode
  | tablet
  | laptop
  | studio
  deriving DecidableEq, Repr

/-- Base info forwarded to adapters (`sdtx::BaseInfo`). -/
structure BaseInfo where
  state : BaseState
  device_type : DeviceType
  id : Nat
  deriving DecidableEq, Repr

/-- Base state as carried by a raw `BaseConnection` event (`sdtx::event::BaseState`). -/
inductive EventBaseState
  | attached
  | detached
  | notFeasible
  | unknown (code : Nat)
  deriving DecidableEq, Repr

/-- Latch status as carried by a raw `LatchStatus` event (`sdtx::event::LatchStatus`). -/
inductive EventLatchStatus
  | closed
  | opened
  | error (err : HardwareError)
  | unknown (code : Nat)
  deriving DecidableEq, Repr

/-- Device mode as carried by a raw `DeviceMode` event (`sdtx::event::DeviceMode`). -/
inductive EventDeviceMode
  | tablet
  | laptop
  | studio
  | unknown (code : Nat)
  deriving DecidableEq, Repr

/-- Runtime error as carried by a raw `Cancel` event (`sdtx::RuntimeError`);
note that it has no `NotAttached` variant. -/
inductive SdtxRuntimeError
  | notFeasible
  | timeout
  | unknown (code : Nat)
  deriving DecidableEq, Repr

/-- Cancel reason as carried by a raw `Cancel` event (`sdtx::event::CancelReason`). -/
inductive EventCancelReason
  | runtime (err : SdtxRuntimeError)
  | hardware (err : HardwareError)
  | unknown (code : Nat)
  deriving DecidableEq, Repr

/-- `impl From<sdtx::RuntimeError> for RuntimeError` in `logic/mod.rs`. -/
def RuntimeError.fromSdtx : SdtxRuntimeError → RuntimeError
  | SdtxRuntimeError.notFeasible => RuntimeError.notFeasible
  | SdtxRuntimeError.timeout => RuntimeError.timeout
  | SdtxRuntimeError.unknown x => RuntimeError.unknown x

/-- `impl From<event::CancelReason> for CancelReason` in `logic/mod.rs`. -/
def CancelReason.fromEvent : EventCancelReason → CancelReason
  | EventCancelReason.runtime e => CancelReason.runtime (RuntimeError.fromSdtx e)
  | EventCancelReason.hardware e => CancelReason.hardware e
  | EventCancelReason.unknown x => CancelReason.unknown x

/-- Events consumed by the core event loop (`logic/core.rs::Event`):
decoded kernel events plus the internal completion signals injected by the
adapters.  The raw payload of the `unknown` variant is irrelevant here. -/
inductive Event
  | request
  | detachConfirm
  | detachCancel
  | detachTimeout
  | attachComplete
  | attachTimeout
  | cancelComplete
  | cancelTimeout
  | cancel (reason : EventCancelReason)
  | baseConnection (state : EventBaseState) (device_type : DeviceType) (id : Nat)
  | latchStatus (status : EventLatchStatus)
  | deviceMode (mode : EventDeviceMode)
  | unknown (code : Nat) (data : List Nat)
  deriving DecidableEq, Repr

/-- The five traced fields of `logic/core.rs::CoreState`. -/
structure CoreState where
  base : BaseState
  latch : LatchState
  ec : EcState
  rt : RuntimeState
  needs_attachment : Bool
  deriving DecidableEq, Repr, Fintype

/-- The device, reduced to the one observation the core makes of it during
event handling: the status a `get_latch_status` ioctl would report.  All other
device interactions from the handlers are control writes, recorded as
`DeviceCall`s. -/
structure Device where
  latch_status : LatchStatus
  deriving DecidableEq, Repr

/-- Device operations issued by the core while handling one event, in order. -/
inductive DeviceCall
  | latch_confirm
  | latch_cancel
  | get_latch_status
  deriving DecidableEq, Repr

/-- Adapter callbacks issued by the core while handling one event, in order
(methods of the `Adapter` trait in `logic/core.rs`). -/
inductive AdapterCall
  | request_canceled (reason : CancelReason)
  | detachment_start
  | detachment_complete
  | detachment_timeout
  | detachment_cancel_start (reason : CancelReason)
  | detachment_cancel_complete
  | detachment_cancel_timeout
  | detachment_unexpected
  | attachment_start
  | attachment_complete
  | attachment_timeout
  | on_base_state (info : BaseInfo)
  | on_latch_status (status : LatchStatus)
  | on_device_mode (mode : DeviceMode)
  deriving DecidableEq, Repr

/-- Result of handling one event: the successor state plus the device control
calls and adapter callbacks performed, in program order. -/
structure StepOut where
  state : CoreState
  device : List DeviceCall
  adapter : List AdapterCall
  deriving DecidableEq, Repr

/-- The tail of `Core::on_request` shared by its cancellation branches
(`logic/core.rs` lines 274-285): reset `ec`, and if a detach script is
running, switch to `Canceling` and start the abort script. -/
def request_cancel_current (s : CoreState) (devc : List DeviceCall) : StepOut :=
  let s := { s with ec := EcState.ready }
  if s.rt = RuntimeState.detaching then
    StepOut.mk { s with rt := RuntimeState.canceling } devc
      [AdapterCall.detachment_cancel_start CancelReason.userRequest]
  else
    StepOut.mk s devc []

/-- `Core::on_request` (`logic/core.rs` lines 245-324).  The 2-second sleep in
the `Confirmed` case has no effect on the state machine and is dropped; the
latch status re-read after it is `dev.latch_status`. -/
def on_request (dev : Device) (s : CoreState) : StepOut :=
  if s.ec ≠ EcState.ready then
    if s.latch = LatchState.opened then
      -- latch open: defer cancellation until the latch closes again
      StepOut.mk s [] []
    else if s.ec = EcState.confirmed then
      if dev.latch_status ≠ LatchStatus.closed then
        -- latch will open momentarily: defer cancellation
        StepOut.mk s [DeviceCall.get_latch_status] []
      else
        request_cancel_current s [DeviceCall.get_latch_status]
    else
      request_cancel_current s []
  else
    let s := { s with ec := EcState.inProgress }
    if s.base ≠ BaseState.attached then
      let reason := match s.base with
        | BaseState.notFeasible => CancelReason.runtime RuntimeError.notFeasible
        | BaseState.detached => CancelReason.runtime RuntimeError.notAttached
        | BaseState.attached => CancelReason.runtime RuntimeError.notAttached
         -- last arm is `unreachable!` in the source: guarded by `base ≠ attached`
      StepOut.mk s [DeviceCall.latch_cancel] [AdapterCall.request_canceled reason]
    else if s.rt ≠ RuntimeState.ready then
      StepOut.mk s [DeviceCall.latch_cancel] []
    else
      StepOut.mk { s with rt := RuntimeState.detaching } [] [AdapterCall.detachment_start]

/-- `Core::on_detach_confirm` (`logic/core.rs` lines 326-343). -/
def on_detach_confirm (s : CoreState) : StepOut :=
  if s.ec ≠ EcState.inProgress then
    StepOut.mk s [] []
  else if s.rt ≠ RuntimeState.detaching then
    StepOut.mk s [] []
  else
    StepOut.mk { s with ec := EcState.confirmed } [DeviceCall.latch_confirm] []

/-- `Core::on_detach_cancel` (`logic/core.rs` lines 345-360). -/
def on_detach_cancel (s : CoreState) : StepOut :=
  if s.ec ≠ EcState.inProgress then
    StepOut.mk s [] []
  else if s.rt ≠ RuntimeState.detaching then
    StepOut.mk s [] []
  else
    StepOut.mk s [DeviceCall.latch_cancel] []

/-- `Core::on_detach_timeout` (`logic/core.rs` lines 362-380). -/
def on_detach_timeout (s : CoreState) : StepOut :=
  if s.ec ≠ EcState.inProgress then
    StepOut.mk s [] []
  else if s.rt ≠ RuntimeState.detaching then
    StepOut.mk s [] []
  else
    StepOut.mk s [DeviceCall.latch_cancel] [AdapterCall.detachment_timeout]

/-- `Core::on_attach_complete` (`logic/core.rs` lines 382-387). -/
def on_attach_complete (s : CoreState) : StepOut :=
  StepOut.mk { s with rt := RuntimeState.ready } [] [AdapterCall.attachment_complete]

/-- `Core::on_attach_timeout` (`logic/core.rs` lines 389-394). -/
def on_attach_timeout (s : CoreState) : StepOut :=
  StepOut.mk { s with rt := RuntimeState.ready } [] [AdapterCall.attachment_timeout]

/-- `Core::on_cancel_complete` (`logic/core.rs` lines 396-401). -/
def on_cancel_complete (s : CoreState) : StepOut :=
  StepOut.mk { s with rt := RuntimeState.ready } [] [AdapterCall.detachment_cancel_complete]

/-- `Core::on_cancel_timeout` (`logic/core.rs` lines 403-408). -/
def on_cancel_timeout (s : CoreState) : StepOut :=
  StepOut.mk { s with rt := RuntimeState.ready } [] [AdapterCall.detachment_cancel_timeout]

/-- `Core::on_cancel` (`logic/core.rs` lines 410-437). -/
def on_cancel (s : CoreState) (reason : EventCancelReason) : StepOut :=
  let r := CancelReason.fromEvent reason
  match s.ec with
  | EcState.ready =>
      StepOut.mk s [] [AdapterCall.request_canceled r]
  | _ =>
      let s := { s with ec := EcState.ready }
      if s.rt = RuntimeState.detaching then
        StepOut.mk { s with rt := RuntimeState.canceling } []
          [AdapterCall.detachment_cancel_start r]
      else
        StepOut.mk s [] []

/-- Translation of a raw base state (`logic/core.rs` lines 441-449);
`none` makes the handler log and return. -/
def base_state_translate : EventBaseState → Option BaseState
  | EventBaseState.attached => some BaseState.attached
  | EventBaseState.detached => some BaseState.detached
  | EventBaseState.notFeasible => some BaseState.notFeasible
  | EventBaseState.unknown _ => none

/-- Body of `Core::on_base_state` after translation succeeded
(`logic/core.rs` lines 451-507). -/
def on_base_connection (s : CoreState) (state : BaseState) (ty : DeviceType) (id : Nat) :
    StepOut :=
  if s.base = state then
    StepOut.mk s [] []
  else
    let old := s.base
    let s := { s with base := state }
    let fwd := [AdapterCall.on_base_state (BaseInfo.mk state ty id)]
    match old, state with
    | _, BaseState.detached =>
        if s.latch = LatchState.closed then
          -- unexpected disconnect: latch is closed
          StepOut.mk s [] (fwd ++ [AdapterCall.detachment_unexpected])
        else if s.ec = EcState.ready then
          -- unexpected disconnect: detachment not in progress but latch open
          StepOut.mk s [] (fwd ++ [AdapterCall.detachment_unexpected])
        else
          StepOut.mk s [] fwd
    | BaseState.detached, _ =>
        match s.latch with
        | LatchState.closed =>
            StepOut.mk
              { s with needs_attachment := false, rt := RuntimeState.attaching }
              [] (fwd ++ [AdapterCall.attachment_start])
        | LatchState.opened =>
            StepOut.mk { s with needs_attachment := true } [] fwd
    | _, _ => StepOut.mk s [] fwd

/-- `Core::on_base_state` (`logic/core.rs` lines 439-508). -/
def on_base_state (s : CoreState) (state : EventBaseState) (ty : DeviceType) (id : Nat) :
    StepOut :=
  match base_state_translate state with
  | none => StepOut.mk s [] []
  | some st => on_base_connection s st ty id

/-- State inference after a latch hardware error, from the status re-read via
ioctl (`logic/core.rs` lines 523-530); `none` is the `Unknown` case in which
the handler gives up. -/
def latch_status_infer : LatchStatus → Option LatchState
  | LatchStatus.closed => some LatchState.closed
  | LatchStatus.opened => some LatchState.opened
  | LatchStatus.error HardwareError.failedToOpen => some LatchState.closed
  | LatchStatus.error HardwareError.failedToRemainOpen => some LatchState.closed
  | LatchStatus.error HardwareError.failedToClose => some LatchState.opened
  | LatchStatus.error (HardwareError.unknown _) => none

/-- Re-encoding of a latch state for the adapter (`logic/core.rs` lines 562-565). -/
def latch_state_to_status : LatchState → LatchStatus
  | LatchState.closed => LatchStatus.closed
  | LatchState.opened => LatchStatus.opened

/-- Body of `Core::on_latch_status` after translation succeeded
(`logic/core.rs` lines 545-623).  `devc`/`acc` are the device calls and
adapter calls already performed during translation. -/
def on_latch_state (s : CoreState) (state : LatchState) (devc : List DeviceCall)
    (acc : List AdapterCall) : StepOut :=
  -- reset EC state if closed; `ec` keeps the value from before the reset
  let ec := s.ec
  let s := if state = LatchState.closed then { s with ec := EcState.ready } else s
  -- update state, return if it has not changed
  if s.latch = state then
    StepOut.mk s devc acc
  else
    let s := { s with latch := state }
    let acc := acc ++ [AdapterCall.on_latch_status (latch_state_to_status state)]
    if state = LatchState.opened then
      StepOut.mk s devc acc
    else if s.base = BaseState.detached then
      -- detachment completed via latch close
      StepOut.mk { s with rt := RuntimeState.ready } devc
        (acc ++ [AdapterCall.detachment_complete])
    else if !s.needs_attachment then
      -- latch opened and closed without the tablet being detached
      if ec ≠ EcState.ready then
        if s.rt = RuntimeState.detaching then
          StepOut.mk { s with rt := RuntimeState.canceling } devc
            (acc ++ [AdapterCall.detachment_cancel_start CancelReason.userRequest])
        else
          StepOut.mk s devc acc
      else
        StepOut.mk s devc acc
    else
      -- tablet was detached and re-attached while the latch was open:
      -- complete the detachment, then run the deferred attachment
      StepOut.mk { s with rt := RuntimeState.attaching, needs_attachment := false } devc
        (acc ++ [AdapterCall.detachment_complete, AdapterCall.attachment_start])

/-- `Core::on_latch_status` (`logic/core.rs` lines 510-623).  On a hardware
error the status is re-read from the device; if the re-read lets the core
infer a state, the original error is forwarded to the adapter first, otherwise
the handler returns without any adapter call. -/
def on_latch_status (dev : Device) (s : CoreState) (status : EventLatchStatus) : StepOut :=
  match status with
  | EventLatchStatus.closed => on_latch_state s LatchState.closed [] []
  | EventLatchStatus.opened => on_latch_state s LatchState.opened [] []
  | EventLatchStatus.error e =>
      match latch_status_infer dev.latch_status with
      | none => StepOut.mk s [DeviceCall.get_latch_status] []
      | some st =>
          on_latch_state s st [DeviceCall.get_latch_status]
            [AdapterCall.on_latch_status (LatchStatus.error e)]
  | EventLatchStatus.unknown _ => StepOut.mk s [] []

/-- `Core::on_device_mode` (`logic/core.rs` lines 625-635). -/
def on_device_mode (s : CoreState) (mode : EventDeviceMode) : StepOut :=
  match mode with
  | EventDeviceMode.tablet => StepOut.mk s [] [AdapterCall.on_device_mode DeviceMode.tablet]
  | EventDeviceMode.laptop => StepOut.mk s [] [AdapterCall.on_device_mode DeviceMode.laptop]
  | EventDeviceMode.studio => StepOut.mk s [] [AdapterCall.on_device_mode DeviceMode.studio]
  | EventDeviceMode.unknown _ => StepOut.mk s [] []

/-- `Core::handle` (`logic/core.rs` lines 198-243): dispatch one event. -/
def handle (dev : Device) (s : CoreState) (e : Event) : StepOut :=
  match e with
  | Event.request => on_request dev s
  | Event.detachConfirm => on_detach_confirm s
  | Event.detachCancel => on_detach_cancel s
  | Event.detachTimeout => on_detach_timeout s
  | Event.attachComplete => on_attach_complete s
  | Event.attachTimeout => on_attach_timeout s
  | Event.cancelComplete => on_cancel_complete s
  | Event.cancelTimeout => on_cancel_timeout s
  | Event.cancel reason => on_cancel s reason
  | Event.baseConnection state ty id => on_base_state s state ty id
  | Event.latchStatus status => on_latch_status dev s status
  | Event.deviceMode mode => on_device_mode s mode
  | Event.unknown _ _ => StepOut.mk s [] []

/-- EC state derived from the initial latch state during startup
(`Core::run`, `logic/core.rs` lines 165-168). -/
def startup_ec : LatchState → EcState
  | LatchState.closed => EcState.ready
  | LatchState.opened => EcState.confirmed

/-- Core state established by the startup sequence of `Core::run`
(`logic/core.rs` lines 155-173) when the initial ioctl reads report `base`
and a non-error latch status `latch` (an error latch status aborts startup).
`needs_attachment` stays at its `Core::new` initial value `false`. -/
def startupState (base : BaseState) (latch : LatchState) : CoreState :=
  CoreState.mk base latch (startup_ec latch) RuntimeState.ready false

/-- Fold the event handler over a list of events, keeping only the state. -/
def processEvents (dev : Device) (s : CoreState) (es : List Event) : CoreState :=
  es.foldl (fun s e => (handle dev s e).state) s

/-- `impl DbusArg for CancelReason` in `service/arg.rs` (lines 86-109),
including the literal string produced for `Hardware(FailedToOpen)`. -/
def CancelReason.as_arg : CancelReason → String
  | CancelReason.userRequest => "request"
  | CancelReason.handlerTimeout => "timeout:handler"
  | CancelReason.disconnectTimeout => "timeout:disconnect"
  | CancelReason.runtime RuntimeError.notAttached => "error:runtime:not-attached"
  | CancelReason.runtime RuntimeError.notFeasible => "error:runtime:not-feasible"
  | CancelReason.runtime RuntimeError.timeout => "error:runtime:timeout"
  | CancelReason.runtime (RuntimeError.unknown x) => "error:runtime:unknown:" ++ toString x
  | CancelReason.hardware HardwareError.failedToOpen => "error:hardware:failedt-to-open"
  | CancelReason.hardware HardwareError.failedToRemainOpen =>
      "error:hardware:failed-to-remain-open"
  | CancelReason.hardware HardwareError.failedToClose => "error:hardware:failed-to-close"
  | CancelReason.hardware (HardwareError.unknown x) => "error:hardware:unknown:" ++ toString x
  | CancelReason.unknown x => "unknown:" ++ toString x

/-- Exit status classification of the detach handler (`logic/proc.rs::ExitStatus`). -/
inductive ExitStatus
  | commence
  | abort
  deriving DecidableEq, Repr

/-- `impl From<std::process::ExitStatus> for ExitStatus` in `logic/proc.rs`
(lines 41-49).  `code` is `Process::ExitStatus::code()`: `none` when the
process was terminated by a signal. -/
def ExitStatus.ofCode (code : Option Int) : ExitStatus :=
  (code.map (fun s => if s = 0 then ExitStatus.commence else ExitStatus.abort)).getD
    ExitStatus.abort

/-- Runtime state owned by the process adapter (`logic/proc.rs::RuntimeState`). -/
inductive ProcRuntimeState
  | ready
  | detaching
  | aborting
  | attaching
  deriving DecidableEq, Repr

/-- Device control calls made by the detachment task spawned by
`ProcessAdapter::detachment_start` (`logic/proc.rs` lines 98-139).
`handler` is the configured detach handler path; `code` the spawned
exit code of the spawned handler (when a handler is configured); `st` the
value of the shared runtime state at the moment the task sends its response. -/
def detachment_task (handler : Option String) (code : Option Int)
    (st : ProcRuntimeState) : List DeviceCall :=
  let status := match handler with
    | some _ => ExitStatus.ofCode code
    | none => ExitStatus.commence
  if st = ProcRuntimeState.detaching then
    if status = ExitStatus.commence then [DeviceCall.latch_confirm]
    else [DeviceCall.latch_cancel]
  else []

/-!
Task queue (`utils/taskq.rs`).

`TaskQueue::run` is
`while let Some(task) = self.rx.recv().await { task.await?; }` over a tokio
unbounded mpsc channel.  The channel itself is external to this repository;
its contract (FIFO delivery, `recv` returning `None` once all senders are
dropped and the buffer is drained) is taken from the Task Queue contract in
the spec.  The loop is modelled as a small-step machine: a tick either polls
the task currently being awaited, dequeues the next task when idle, or — when
the channel is closed and drained — stops.  Tasks are identified by a label
and a number of polls they need to complete; `subs` is a history variable
recording every accepted submission in order.
-/

/-- Observable queue events: the future of a task is first polled / completes. -/
inductive QEvent
  | start (id : Nat)
  | finish (id : Nat)
  deriving DecidableEq, Repr

/-- Environment actions driving the queue: a sender submits a task of a given
duration, all senders close, or the run loop gets to make one step. -/
inductive QAction
  | submit (id : Nat) (dur : Nat)
  | close
  | tick
  deriving DecidableEq, Repr

/-- State of the queue machine: pending channel contents in FIFO order, the
task currently being awaited (with its remaining polls), whether the sender
side is closed, whether the run loop has returned, the trace of observable
events, and the history of accepted submissions. -/
structure QState where
  queue : List (Nat × Nat)
  closed : Bool
  active : Option (Nat × Nat)
  stopped : Bool
  trace : List QEvent
  subs : List Nat
  deriving DecidableEq, Repr

/-- Initial queue state, as produced by `taskq::new`. -/
def qInit : QState :=
  QState.mk [] false none false [] []

/-- One step of the queue machine.  `submit` models `TaskSender::submit`
(rejected once the channel is closed); `tick` models one scheduling step of
`TaskQueue::run`: poll the awaited task to completion before receiving the
next one, and return once `recv` yields `None` (channel closed and drained). -/
def qstep (s : QState) (a : QAction) : QState :=
  match a with
  | QAction.submit id dur =>
      if s.closed then s
      else { s with queue := s.queue ++ [(id, dur)], subs := s.subs ++ [id] }
  | QAction.close => { s with closed := true }
  | QAction.tick =>
      if s.stopped then s
      else
        match s.active with
        | some (id, Nat.succ n) => { s with active := some (id, n) }
        | some (id, 0) =>
            { s with active := none, trace := s.trace ++ [QEvent.finish id] }
        | none =>
            match s.queue with
            | (id, dur) :: rest =>
                { s with queue := rest, active := some (id, dur),
                         trace := s.trace ++ [QEvent.start id] }
            | [] => if s.closed then { s with stopped := true } else s

/-- Run the queue machine over a list of environment actions. -/
def qrun (acts : List QAction) : QState :=
  acts.foldl qstep qInit

/-- The trace of a list of jobs each run to completion, one after the other. -/
def expandTrace : List Nat → List QEvent
  | [] => []
  | t :: ts => QEvent.start t :: QEvent.finish t :: expandTrace ts

/-- FIFO discipline of the queue: the accepted submissions split into the
completed jobs, the job being awaited (if any) and the still-queued jobs, in
that order; the trace is exactly the sequential run-to-completion trace of
the completed jobs, followed by the start of the job being awaited; and the
run loop has returned only with the channel closed and fully drained. -/
def QOrdered (s : QState) : Prop :=
  ∃ done,
    s.subs = done ++ (s.active.map Prod.fst).toList ++ s.queue.map Prod.fst ∧
    s.trace = expandTrace done ++ (s.active.map Prod.fst).toList.map QEvent.start ∧
    (s.stopped = false ∨ (s.closed = true ∧ s.active = none ∧ s.queue = []))


/-- A device whose latch status reads back `Closed`.  The event sequences fed
to it below never perform a `get_latch_status` read, so the value is inert;
it only fixes the `Device` argument of `handle`. -/
def devClosed : Device :=
  Device.mk LatchStatus.closed

/-!
Helper lemmas about the individual event handlers.
-/

theorem on_request_ec_values (dev : Device) (s : CoreState) :
    (on_request dev s).state.ec = s.ec ∨ (on_request dev s).state.ec = EcState.ready ∨
      (on_request dev s).state.ec = EcState.inProgress := by
  simp only [on_request, request_cancel_current]
  split_ifs <;> simp

theorem on_cancel_ec_values (s : CoreState) (r : EventCancelReason) :
    (on_cancel s r).state.ec = s.ec ∨ (on_cancel s r).state.ec = EcState.ready := by
  simp only [on_cancel]
  rcases hec : s.ec <;> simp only [hec] <;> (try split_ifs) <;> simp

theorem on_latch_state_ec_values (s : CoreState) (st : LatchState) (devc : List DeviceCall)
    (acc : List AdapterCall) :
    (on_latch_state s st devc acc).state.ec = s.ec ∨
      (on_latch_state s st devc acc).state.ec = EcState.ready := by
  simp only [on_latch_state]
  split_ifs <;> simp

theorem on_base_connection_state_ec (s : CoreState) (st : BaseState) (ty : DeviceType)
    (id : Nat) : (on_base_connection s st ty id).state.ec = s.ec := by
  unfold on_base_connection
  dsimp only
  repeat' split
  all_goals rfl

theorem on_detach_cancel_state (s : CoreState) : (on_detach_cancel s).state = s := by
  simp only [on_detach_cancel]
  split_ifs <;> rfl

theorem on_detach_timeout_state (s : CoreState) : (on_detach_timeout s).state = s := by
  simp only [on_detach_timeout]
  split_ifs <;> rfl

theorem on_device_mode_state (s : CoreState) (m : EventDeviceMode) :
    (on_device_mode s m).state = s := by
  cases m <;> rfl

theorem on_detach_confirm_confirmed (s : CoreState) (h : s.ec ≠ EcState.confirmed)
    (h2 : (on_detach_confirm s).state.ec = EcState.confirmed) :
    (on_detach_confirm s).state.rt = RuntimeState.detaching := by
  simp only [on_detach_confirm] at h2 ⊢
  split_ifs at h2 ⊢ <;> simp_all

theorem on_request_rt_values (dev : Device) (s : CoreState) :
    (on_request dev s).state.rt = s.rt ∨ (on_request dev s).state.rt = RuntimeState.canceling ∨
      (on_request dev s).state.rt = RuntimeState.detaching := by
  simp only [on_request, request_cancel_current]
  split_ifs <;> simp

theorem on_cancel_rt_values (s : CoreState) (r : EventCancelReason) :
    (on_cancel s r).state.rt = s.rt ∨ (on_cancel s r).state.rt = RuntimeState.canceling := by
  simp only [on_cancel]
  rcases hec : s.ec <;> simp only [hec] <;> (try split_ifs) <;> simp

theorem on_detach_confirm_state_rt (s : CoreState) :
    (on_detach_confirm s).state.rt = s.rt := by
  simp only [on_detach_confirm]
  split_ifs <;> rfl

theorem on_base_connection_attaching (s : CoreState) (st : BaseState) (ty : DeviceType)
    (id : Nat) (h : s.rt ≠ RuntimeState.attaching)
    (h2 : (on_base_connection s st ty id).state.rt = RuntimeState.attaching) :
    (on_base_connection s st ty id).state.latch = LatchState.closed ∧
      (on_base_connection s st ty id).state.base ≠ BaseState.detached := by
  revert h2
  unfold on_base_connection
  dsimp only
  repeat' split
  all_goals (intro h2; simp_all)

theorem on_latch_state_attaching (s : CoreState) (st : LatchState) (devc : List DeviceCall)
    (acc : List AdapterCall) (h : s.rt ≠ RuntimeState.attaching)
    (h2 : (on_latch_state s st devc acc).state.rt = RuntimeState.attaching) :
    (on_latch_state s st devc acc).state.latch = LatchState.closed ∧
      (on_latch_state s st devc acc).state.base ≠ BaseState.detached := by
  revert h2
  cases st <;> simp only [on_latch_state] <;> split_ifs <;> intro h2 <;> simp_all

theorem on_base_connection_state_base (s : CoreState) (st : BaseState) (ty : DeviceType)
    (id : Nat) : (on_base_connection s st ty id).state.base = st := by
  unfold on_base_connection
  dsimp only
  repeat' split
  all_goals simp_all

theorem on_base_connection_unchanged (s : CoreState) (st : BaseState) (ty : DeviceType)
    (id : Nat) (h : s.base = st) :
    on_base_connection s st ty id = StepOut.mk s [] [] := by
  simp only [on_base_connection, h]
  simp

theorem on_latch_state_state_latch (s : CoreState) (st : LatchState)
    (devc : List DeviceCall) (acc : List AdapterCall) :
    (on_latch_state s st devc acc).state.latch = st := by
  simp only [on_latch_state]
  split_ifs <;> simp_all

theorem on_latch_state_unchanged (s : CoreState) (st : LatchState)
    (devc : List DeviceCall) (acc : List AdapterCall) (h : s.latch = st) :
    (on_latch_state s st devc acc).adapter = acc := by
  simp only [on_latch_state]
  split_ifs <;> simp_all

theorem on_latch_state_changed_adapter (s : CoreState) (st : LatchState)
    (devc : List DeviceCall) (acc : List AdapterCall) (h : s.latch ≠ st) :
    ∃ rest, (on_latch_state s st devc acc).adapter
      = acc ++ AdapterCall.on_latch_status (latch_state_to_status st) :: rest := by
  simp only [on_latch_state]
  split_ifs <;> simp_all

/-!
Helper lemmas for the task queue model.
-/

theorem expandTrace_append (l : List Nat) (t : Nat) :
    expandTrace (l ++ [t]) = expandTrace l ++ [QEvent.start t, QEvent.finish t] := by
  induction l with
  | nil => rfl
  | cons x xs ih => simp [expandTrace, ih]

theorem qInit_ordered : QOrdered qInit :=
  ⟨[], rfl, rfl, Or.inl rfl⟩

theorem qstep_ordered (s : QState) (a : QAction) (h : QOrdered s) : QOrdered (qstep s a) := by
  rcases h with ⟨done, hsubs, htrace, hstop⟩
  cases a with
  | submit id dur =>
      simp only [qstep]
      split_ifs with hc
      · exact ⟨done, hsubs, htrace, hstop⟩
      · refine ⟨done, ?_, htrace, ?_⟩
        · simp [hsubs]
        · rcases hstop with hstop | ⟨hcl, _⟩
          · exact Or.inl hstop
          · exact absurd hcl hc
  | close =>
      refine ⟨done, hsubs, htrace, ?_⟩
      rcases hstop with hstop | ⟨_, ha, hq⟩
      · exact Or.inl hstop
      · exact Or.inr ⟨rfl, ha, hq⟩
  | tick =>
      cases hs2 : s.stopped with
      | true =>
          simp only [qstep, hs2, if_true]
          exact ⟨done, hsubs, htrace, hstop⟩
      | false =>
          cases ha : s.active with
          | some p =>
              rcases p with ⟨id, n⟩
              rw [ha] at hsubs htrace
              cases n with
              | succ m =>
                  simp only [qstep, hs2, ha]
                  exact ⟨done, by simpa using hsubs, by simpa using htrace, Or.inl rfl⟩
              | zero =>
                  simp only [qstep, hs2, ha]
                  simp at hsubs htrace
                  refine ⟨done ++ [id], ?_, ?_, Or.inl rfl⟩
                  · simp [hsubs]
                  · simp [htrace, expandTrace_append]
          | none =>
              rw [ha] at hsubs htrace
              simp at hsubs htrace
              cases hq : s.queue with
              | cons p rest =>
                  rcases p with ⟨id, dur⟩
                  rw [hq] at hsubs
                  simp only [qstep, hs2, ha, hq]
                  refine ⟨done, ?_, ?_, Or.inl rfl⟩
                  · simpa using hsubs
                  · simp [htrace]
              | nil =>
                  by_cases hc : s.closed = true
                  · refine ⟨done, ?_, ?_, ?_⟩ <;>
                      simp [qstep, hs2, ha, hq, hc, hsubs, htrace]
                  · refine ⟨done, ?_, ?_, ?_⟩ <;>
                      simp [qstep, hs2, ha, hq, hc, hsubs, htrace]

/-!
Claim theorems.
-/

/-- Claim C1, counterexample: the claimed invariant `ec = Confirmed implies
rt in (Detaching, Canceling)` is violated by a reachable state.  Starting from
the attached startup state, the events `Request`, `DetachConfirm`,
`BaseConnection(Detached)`, `BaseConnection(Attached)` (a forceful removal and
re-attach while the latch is closed) leave `ec = Confirmed` with
`rt = Attaching`.  The startup sequence with an opened latch likewise
establishes `ec = Confirmed` with `rt = Ready`. -/
theorem confirmed_requires_script_counterexample :
    (processEvents devClosed (startupState BaseState.attached LatchState.closed)
        [Event.request, Event.detachConfirm,
         Event.baseConnection EventBaseState.detached DeviceType.hid 0,
         Event.baseConnection EventBaseState.attached DeviceType.hid 0]).ec
      = EcState.confirmed ∧
    ¬((processEvents devClosed (startupState BaseState.attached LatchState.closed)
        [Event.request, Event.detachConfirm,
         Event.baseConnection EventBaseState.detached DeviceType.hid 0,
         Event.baseConnection EventBaseState.attached DeviceType.hid 0]).rt
          = RuntimeState.detaching ∨
      (processEvents devClosed (startupState BaseState.attached LatchState.closed)
        [Event.request, Event.detachConfirm,
         Event.baseConnection EventBaseState.detached DeviceType.hid 0,
         Event.baseConnection EventBaseState.attached DeviceType.hid 0]).rt
          = RuntimeState.canceling) := by
  decide

/-- Claim C1, amended: whenever processing a single event changes `ec` from a
value other than `Confirmed` to `Confirmed`, the resulting state has
`rt = Detaching` (hence in particular rt is Detaching or Canceling at that
moment).  The property is not an invariant of all reachable states: the
startup sequence with an opened latch establishes `ec = Confirmed` with
`rt = Ready`, and later events can move `rt` to `Attaching` while `ec` stays
`Confirmed`. -/
theorem confirmed_established_with_detaching (dev : Device) (s : CoreState) (e : Event)
    (h : s.ec ≠ EcState.confirmed)
    (h2 : (handle dev s e).state.ec = EcState.confirmed) :
    (handle dev s e).state.rt = RuntimeState.detaching := by
  cases e <;> simp only [handle] at h2 ⊢
  case request =>
      rcases on_request_ec_values dev s with hv | hv | hv <;> rw [hv] at h2
      · exact absurd h2 h
      · exact absurd h2 (by decide)
      · exact absurd h2 (by decide)
  case detachConfirm => exact on_detach_confirm_confirmed s h h2
  case detachCancel => rw [on_detach_cancel_state] at h2; exact absurd h2 h
  case detachTimeout => rw [on_detach_timeout_state] at h2; exact absurd h2 h
  case attachComplete => simp [on_attach_complete] at h2; exact absurd h2 h
  case attachTimeout => simp [on_attach_timeout] at h2; exact absurd h2 h
  case cancelComplete => simp [on_cancel_complete] at h2; exact absurd h2 h
  case cancelTimeout => simp [on_cancel_timeout] at h2; exact absurd h2 h
  case cancel r =>
      rcases on_cancel_ec_values s r with hv | hv <;> rw [hv] at h2
      · exact absurd h2 h
      · exact absurd h2 (by decide)
  case baseConnection st ty id =>
      unfold on_base_state at h2 ⊢
      cases h3 : base_state_translate st with
      | none => rw [h3] at h2; exact absurd h2 h
      | some b =>
          rw [h3] at h2
          have h4 : (on_base_connection s b ty id).state.ec = EcState.confirmed := h2
          rw [on_base_connection_state_ec] at h4
          exact absurd h4 h
  case latchStatus st =>
      cases st with
      | closed =>
          simp only [on_latch_status] at h2 ⊢
          rcases on_latch_state_ec_values s LatchState.closed [] [] with hv | hv <;>
            rw [hv] at h2
          · exact absurd h2 h
          · exact absurd h2 (by decide)
      | opened =>
          simp only [on_latch_status] at h2 ⊢
          rcases on_latch_state_ec_values s LatchState.opened [] [] with hv | hv <;>
            rw [hv] at h2
          · exact absurd h2 h
          · exact absurd h2 (by decide)
      | error e =>
          simp only [on_latch_status] at h2 ⊢
          cases h3 : latch_status_infer dev.latch_status with
          | none => rw [h3] at h2; exact absurd h2 h
          | some v =>
              rw [h3] at h2
              rcases on_latch_state_ec_values s v [DeviceCall.get_latch_status]
                  [AdapterCall.on_latch_status (LatchStatus.error e)] with hv | hv <;>
                rw [hv] at h2
              · exact absurd h2 h
              · exact absurd h2 (by decide)
      | unknown x => exact absurd h2 h
  case deviceMode m => rw [on_device_mode_state] at h2; exact absurd h2 h
  case unknown c d => exact absurd h2 h

/-- Claim C1, witness: `DetachConfirm` in the state reached right after a
detachment request establishes `ec = Confirmed` with `rt = Detaching`. -/
theorem confirmed_established_with_detaching_witness :
    (CoreState.mk BaseState.attached LatchState.closed EcState.inProgress
        RuntimeState.detaching false).ec ≠ EcState.confirmed ∧
    (handle devClosed
        (CoreState.mk BaseState.attached LatchState.closed EcState.inProgress
          RuntimeState.detaching false)
        Event.detachConfirm).state.ec = EcState.confirmed ∧
    (handle devClosed
        (CoreState.mk BaseState.attached LatchState.closed EcState.inProgress
          RuntimeState.detaching false)
        Event.detachConfirm).state.rt = RuntimeState.detaching :=
  ⟨by decide, by decide,
    confirmed_established_with_detaching devClosed
      (CoreState.mk BaseState.attached LatchState.closed EcState.inProgress
        RuntimeState.detaching false)
      Event.detachConfirm (by decide) (by decide)⟩

/-- Claim C2: starting from the initial attached state, the full
detach-and-reattach lifecycle `Request`, `DetachConfirm`,
`LatchStatus(Opened)`, `BaseConnection(Detached)`, `BaseConnection(Attached)`,
`LatchStatus(Closed)`, `AttachComplete` returns `CoreState` exactly to the
initial attached state. -/
theorem detach_reattach_round_trip :
    processEvents devClosed (startupState BaseState.attached LatchState.closed)
      [Event.request, Event.detachConfirm, Event.latchStatus EventLatchStatus.opened,
       Event.baseConnection EventBaseState.detached DeviceType.ssh 0,
       Event.baseConnection EventBaseState.attached DeviceType.ssh 0,
       Event.latchStatus EventLatchStatus.closed, Event.attachComplete]
      = startupState BaseState.attached LatchState.closed := by
  decide

/-- Claim C3, counterexample: when the status re-read after a
`LatchStatus(Error(FailedToOpen))` event yields an unknown hardware error, the
handler returns before forwarding anything, so the adapter receives no status
at all, not the claimed lone `Error` status. -/
theorem latch_error_forward_counterexample :
    (handle (Device.mk (LatchStatus.error (HardwareError.unknown 5)))
        (startupState BaseState.attached LatchState.closed)
        (Event.latchStatus (EventLatchStatus.error HardwareError.failedToOpen))).adapter
      = [] ∧
    (handle (Device.mk (LatchStatus.error (HardwareError.unknown 5)))
        (startupState BaseState.attached LatchState.closed)
        (Event.latchStatus (EventLatchStatus.error HardwareError.failedToOpen))).adapter
      ≠ [AdapterCall.on_latch_status (LatchStatus.error HardwareError.failedToOpen)] := by
  decide

/-- Claim C3, amended: for a `LatchStatus(Error(e))` event, if the status
re-read by ioctl yields an unknown hardware error the adapter receives
nothing and translation is aborted; if it lets the core infer a state equal
to the current latch state, the adapter receives only `Error(e)`; and if the
inferred state differs from the current latch state, the adapter receives
`Error(e)` followed by the inferred `Closed`/`Opened` status, in that order. -/
theorem latch_error_forwarding (dev : Device) (s : CoreState) (e : HardwareError) :
    (latch_status_infer dev.latch_status = none →
      (handle dev s (Event.latchStatus (EventLatchStatus.error e))).adapter = []) ∧
    (∀ st, latch_status_infer dev.latch_status = some st →
      (s.latch = st →
        (handle dev s (Event.latchStatus (EventLatchStatus.error e))).adapter
          = [AdapterCall.on_latch_status (LatchStatus.error e)]) ∧
      (s.latch ≠ st →
        ∃ rest, (handle dev s (Event.latchStatus (EventLatchStatus.error e))).adapter
          = AdapterCall.on_latch_status (LatchStatus.error e)
            :: AdapterCall.on_latch_status (latch_state_to_status st) :: rest)) := by
  simp only [handle, on_latch_status]
  constructor
  · intro h3
    rw [h3]
  · intro st h3
    rw [h3]
    constructor
    · intro hlatch
      exact on_latch_state_unchanged _ _ _ _ hlatch
    · intro hlatch
      rcases on_latch_state_changed_adapter s st [DeviceCall.get_latch_status]
        [AdapterCall.on_latch_status (LatchStatus.error e)] hlatch with ⟨rest, hrest⟩
      exact ⟨rest, by simpa using hrest⟩

/-- Claim C3, witness: with the latch currently opened and the re-read
reporting `Closed`, an `Error(FailedToRemainOpen)` event delivers the error
followed by the inferred `Closed` status. -/
theorem latch_error_forwarding_witness :
    ∃ rest, (handle (Device.mk LatchStatus.closed)
        (CoreState.mk BaseState.attached LatchState.opened EcState.confirmed
          RuntimeState.detaching false)
        (Event.latchStatus (EventLatchStatus.error HardwareError.failedToRemainOpen))).adapter
      = AdapterCall.on_latch_status (LatchStatus.error HardwareError.failedToRemainOpen)
        :: AdapterCall.on_latch_status (latch_state_to_status LatchState.closed) :: rest :=
  ((latch_error_forwarding (Device.mk LatchStatus.closed)
      (CoreState.mk BaseState.attached LatchState.opened EcState.confirmed
        RuntimeState.detaching false)
      HardwareError.failedToRemainOpen).2 LatchState.closed rfl).2 (by decide)

/-- Claim C4, counterexample: a `Request` processed with `ec = Ready` and
`base = Detached` leaves `ec = InProgress`, not `ec = Ready` as claimed; the
state machine only returns to `Ready` when the subsequent `Cancel` event from
the EC is processed. -/
theorem request_detached_ec_counterexample :
    (handle devClosed
        (CoreState.mk BaseState.detached LatchState.closed EcState.ready RuntimeState.ready
          false)
        Event.request).state.ec = EcState.inProgress ∧
    (handle devClosed
        (CoreState.mk BaseState.detached LatchState.closed EcState.ready RuntimeState.ready
          false)
        Event.request).state.ec ≠ EcState.ready := by
  decide

/-- Claim C4, amended: when a `Request` event is processed while `ec = Ready`
and `base = Detached`, the core calls `latch_cancel` on the device, the
adapter receives `request_canceled(Runtime(NotAttached))`, and `ec` is
`InProgress` (not `Ready`) after the handler completes; no other state field
changes. -/
theorem request_while_detached (dev : Device) (s : CoreState)
    (hec : s.ec = EcState.ready) (hbase : s.base = BaseState.detached) :
    handle dev s Event.request
      = StepOut.mk { s with ec := EcState.inProgress } [DeviceCall.latch_cancel]
          [AdapterCall.request_canceled (CancelReason.runtime RuntimeError.notAttached)] := by
  simp [handle, on_request, hec, hbase]

/-- Claim C4, witness: the amended statement evaluated in the detached
startup state. -/
theorem request_while_detached_witness :
    handle devClosed
        (CoreState.mk BaseState.detached LatchState.closed EcState.ready RuntimeState.ready
          false)
        Event.request
      = StepOut.mk
          (CoreState.mk BaseState.detached LatchState.closed EcState.inProgress
            RuntimeState.ready false)
          [DeviceCall.latch_cancel]
          [AdapterCall.request_canceled (CancelReason.runtime RuntimeError.notAttached)] :=
  request_while_detached devClosed
    (CoreState.mk BaseState.detached LatchState.closed EcState.ready RuntimeState.ready false)
    rfl rfl

/-- Claim C5, counterexample: the claimed invariant `rt = Attaching implies
latch = Closed and base not Detached` is violated by a reachable state: from
the detached startup state, `BaseConnection(Attached)` starts the attachment
process, and a following `BaseConnection(Detached)` leaves `rt = Attaching`
with `base = Detached` (the disconnect branch does not reset `rt`). -/
theorem attaching_invariant_counterexample :
    (processEvents devClosed (startupState BaseState.detached LatchState.closed)
        [Event.baseConnection EventBaseState.attached DeviceType.hid 0,
         Event.baseConnection EventBaseState.detached DeviceType.hid 0]).rt
      = RuntimeState.attaching ∧
    ¬((processEvents devClosed (startupState BaseState.detached LatchState.closed)
        [Event.baseConnection EventBaseState.attached DeviceType.hid 0,
         Event.baseConnection EventBaseState.detached DeviceType.hid 0]).latch
          = LatchState.closed ∧
      (processEvents devClosed (startupState BaseState.detached LatchState.closed)
        [Event.baseConnection EventBaseState.attached DeviceType.hid 0,
         Event.baseConnection EventBaseState.detached DeviceType.hid 0]).base
          ≠ BaseState.detached) := by
  decide

/-- Claim C5, amended: whenever processing a single event changes `rt` from a
value other than `Attaching` to `Attaching`, the resulting state has
`latch = Closed` and `base` not `Detached`.  The property is not preserved by
later events: a `BaseConnection(Detached)` arriving while `rt = Attaching`
leaves `rt = Attaching` with `base = Detached`. -/
theorem attaching_established_closed_attached (dev : Device) (s : CoreState) (e : Event)
    (h : s.rt ≠ RuntimeState.attaching)
    (h2 : (handle dev s e).state.rt = RuntimeState.attaching) :
    (handle dev s e).state.latch = LatchState.closed ∧
      (handle dev s e).state.base ≠ BaseState.detached := by
  cases e <;> simp only [handle] at h2 ⊢
  case request =>
      rcases on_request_rt_values dev s with hv | hv | hv <;> rw [hv] at h2
      · exact absurd h2 h
      · exact absurd h2 (by decide)
      · exact absurd h2 (by decide)
  case detachConfirm => rw [on_detach_confirm_state_rt] at h2; exact absurd h2 h
  case detachCancel => rw [on_detach_cancel_state] at h2; exact absurd h2 h
  case detachTimeout => rw [on_detach_timeout_state] at h2; exact absurd h2 h
  case attachComplete => simp [on_attach_complete] at h2
  case attachTimeout => simp [on_attach_timeout] at h2
  case cancelComplete => simp [on_cancel_complete] at h2
  case cancelTimeout => simp [on_cancel_timeout] at h2
  case cancel r =>
      rcases on_cancel_rt_values s r with hv | hv <;> rw [hv] at h2
      · exact absurd h2 h
      · exact absurd h2 (by decide)
  case baseConnection st ty id =>
      unfold on_base_state at h2 ⊢
      cases h3 : base_state_translate st with
      | none => rw [h3] at h2; exact absurd h2 h
      | some b =>
          rw [h3] at h2
          exact on_base_connection_attaching s b ty id h h2
  case latchStatus st =>
      cases st with
      | closed =>
          simp only [on_latch_status] at h2 ⊢
          exact on_latch_state_attaching s LatchState.closed [] [] h h2
      | opened =>
          simp only [on_latch_status] at h2 ⊢
          exact on_latch_state_attaching s LatchState.opened [] [] h h2
      | error e =>
          simp only [on_latch_status] at h2 ⊢
          cases h3 : latch_status_infer dev.latch_status with
          | none => rw [h3] at h2; exact absurd h2 h
          | some v =>
              rw [h3] at h2
              exact on_latch_state_attaching s v _ _ h h2
      | unknown x => exact absurd h2 h
  case deviceMode m => rw [on_device_mode_state] at h2; exact absurd h2 h
  case unknown c d => exact absurd h2 h

/-- Claim C5, witness: a `BaseConnection(Attached)` in the detached startup
state sets `rt = Attaching` with `latch = Closed` and `base = Attached`. -/
theorem attaching_established_closed_attached_witness :
    (handle devClosed (startupState BaseState.detached LatchState.closed)
        (Event.baseConnection EventBaseState.attached DeviceType.hid 0)).state.latch
      = LatchState.closed ∧
    (handle devClosed (startupState BaseState.detached LatchState.closed)
        (Event.baseConnection EventBaseState.attached DeviceType.hid 0)).state.base
      ≠ BaseState.detached :=
  attaching_established_closed_attached devClosed
    (startupState BaseState.detached LatchState.closed)
    (Event.baseConnection EventBaseState.attached DeviceType.hid 0)
    (by decide) (by decide)

/-- Claim C6: re-processing the same `BaseConnection` event, or the same
non-error `LatchStatus` event, from the state it produced makes no adapter
call at all: after the first processing the reported state equals the stored
state, so the unchanged-state early return is taken.  Hence feeding such an
event twice produces no additional adapter calls compared to feeding it once.
(Error-carrying `LatchStatus` events report a hardware error, not a latch
state; the error is forwarded verbatim on every delivery by design.) -/
theorem unchanged_event_idempotent (dev : Device) (s : CoreState) (e : Event)
    (hshape : (∃ st ty id, e = Event.baseConnection st ty id) ∨
      e = Event.latchStatus EventLatchStatus.closed ∨
      e = Event.latchStatus EventLatchStatus.opened ∨
      (∃ x, e = Event.latchStatus (EventLatchStatus.unknown x))) :
    (handle dev (handle dev s e).state e).adapter = [] := by
  rcases hshape with ⟨st, ty, id, rfl⟩ | rfl | rfl | ⟨x, rfl⟩
  · simp only [handle, on_base_state]
    cases h3 : base_state_translate st with
    | none => rfl
    | some b =>
        dsimp only
        rw [on_base_connection_unchanged _ _ ty id (on_base_connection_state_base s b ty id)]
  · simp only [handle, on_latch_status]
    exact on_latch_state_unchanged _ _ _ _ (on_latch_state_state_latch s LatchState.closed [] [])
  · simp only [handle, on_latch_status]
    exact on_latch_state_unchanged _ _ _ _ (on_latch_state_state_latch s LatchState.opened [] [])
  · rfl

/-- Claim C6, witness: re-processing a `BaseConnection(Detached)` event from
the attached startup state produces no adapter call the second time. -/
theorem unchanged_event_idempotent_witness :
    (handle devClosed
        (handle devClosed (startupState BaseState.attached LatchState.closed)
          (Event.baseConnection EventBaseState.detached DeviceType.hid 1)).state
        (Event.baseConnection EventBaseState.detached DeviceType.hid 1)).adapter = [] :=
  unchanged_event_idempotent devClosed (startupState BaseState.attached LatchState.closed)
    (Event.baseConnection EventBaseState.detached DeviceType.hid 1)
    (Or.inl ⟨EventBaseState.detached, DeviceType.hid, 1, rfl⟩)

/-- Claim C7: the task queue executes submitted jobs strictly in submission
(FIFO) order with at most one job active at any instant, and its run loop
stops only when the sender side is closed and the queue is drained.  For any
sequence of environment actions, the accepted submissions split into the
completed jobs, the job currently awaited and the queued jobs, in order, and
the observable trace is exactly the sequential run-to-completion trace of the
completed jobs followed by the start of the awaited job: every job finishes
before the next one starts. -/
theorem task_queue_fifo (acts : List QAction) : QOrdered (qrun acts) := by
  have main : ∀ (l : List QAction) (s : QState), QOrdered s → QOrdered (l.foldl qstep s) := by
    intro l
    induction l with
    | nil => exact fun s h => h
    | cons a rest ih => exact fun s h => ih (qstep s a) (qstep_ordered s a h)
  exact main acts qInit qInit_ordered

/-- Claim C8: the D-Bus encoding of `CancelReason.Hardware(FailedToOpen)`
produced by the code is the misspelled string `error:hardware:failedt-to-open`
rather than the `error:hardware:failed-to-open` required by the spec grammar
(the sibling `LatchStatus` encoding in the same file spells it correctly). -/
theorem cancel_reason_failed_to_open_encoding :
    CancelReason.as_arg (CancelReason.hardware HardwareError.failedToOpen)
        = "error:hardware:failedt-to-open" ∧
      CancelReason.as_arg (CancelReason.hardware HardwareError.failedToOpen)
        ≠ "error:hardware:failed-to-open" := by
  constructor
  · rfl
  · decide

/-- Claim C9: a `DetachConfirm`, `DetachCancel` or `DetachTimeout` signal
processed while `ec` is not `InProgress` or `rt` is not `Detaching` returns
success, leaves all five `CoreState` fields unchanged, performs no device
control operation and makes no adapter call. -/
theorem stale_detach_signals_dropped (dev : Device) (s : CoreState) (e : Event)
    (hshape : e = Event.detachConfirm ∨ e = Event.detachCancel ∨ e = Event.detachTimeout)
    (hstale : s.ec ≠ EcState.inProgress ∨ s.rt ≠ RuntimeState.detaching) :
    handle dev s e = StepOut.mk s [] [] := by
  rcases hshape with h | h | h <;> subst h <;>
    simp only [handle, on_detach_confirm, on_detach_cancel, on_detach_timeout] <;>
    rcases hstale with h | h <;> simp [h]

/-- Claim C9, witness: a stale `DetachConfirm` in the initial attached state
is silently dropped. -/
theorem stale_detach_signals_dropped_witness :
    handle devClosed
        (CoreState.mk BaseState.attached LatchState.closed EcState.ready RuntimeState.ready
          false)
        Event.detachConfirm
      = StepOut.mk
          (CoreState.mk BaseState.attached LatchState.closed EcState.ready RuntimeState.ready
            false)
          [] [] :=
  stale_detach_signals_dropped devClosed
    (CoreState.mk BaseState.attached LatchState.closed EcState.ready RuntimeState.ready false)
    Event.detachConfirm (Or.inl rfl) (Or.inl (by decide))

/-- Claim C10: a detach handler that terminates without an exit code (killed
by a signal) is classified as `Abort`, so a detachment still in the
`Detaching` state receives `latch_cancel` rather than `latch_confirm`; exit
code 0 is classified as `Commence` and every non-zero exit code as `Abort`,
again resulting in `latch_cancel`. -/
theorem exit_status_classification (code : Int) (path : String) :
    ExitStatus.ofCode none = ExitStatus.abort ∧
    detachment_task (some path) none ProcRuntimeState.detaching
      = [DeviceCall.latch_cancel] ∧
    ExitStatus.ofCode (some 0) = ExitStatus.commence ∧
    (code ≠ 0 →
      ExitStatus.ofCode (some code) = ExitStatus.abort ∧
      detachment_task (some path) (some code) ProcRuntimeState.detaching
        = [DeviceCall.latch_cancel]) := by
  refine ⟨rfl, rfl, rfl, fun h => ?_⟩
  have habort : ExitStatus.ofCode (some code) = ExitStatus.abort := by
    simp [ExitStatus.ofCode, h]
  exact ⟨habort, by simp [detachment_task, habort]⟩

/-- Claim C10, witness: exit code 1 aborts the detachment and the task issues
`latch_cancel`. -/
theorem exit_status_classification_witness :
    ExitStatus.ofCode (some 1) = ExitStatus.abort ∧
    detachment_task (some "detach.sh") (some 1) ProcRuntimeState.detaching
      = [DeviceCall.latch_cancel] :=
  (exit_status_classification 1 "detach.sh").2.2.2 (by decide)

end Sdtxd
